import Mathlib

/-!
Verification of the Twitter collection loop of `src/twit_posts.py`
(`TwitterScraperOptimized`): a shallow embedding of the data model, the
record-normalization function `_process_tweet`, the fetch wrapper
`_fetch_tweets_async` (with its tenacity retry policy), the batch writer
`_save_batch`, and the main loop `scrape_tweets`, together with theorems
about the claims of the specification.

Modelling conventions:
* machine wall-clock reads (`time.time()`, `datetime.now()`) are explicit
  `Nat` parameters (seconds);
* the outcome of `datetime.fromisoformat` on the raw `created_at` field is
  library behaviour, abstracted to an inductive (`missing` — the field is
  absent, so `created_at_str` is `None` and `None.replace` raises an
  `AttributeError` that the `except (ValueError, TypeError)` handler does
  not catch; `unparsable` — present but the parse raises `ValueError`,
  which is caught; `parsed t` — present and parses to instant `t`);
* ISO-8601 / `strftime` renderings of a datetime are injective library
  functions and are carried as the underlying instant (`Nat`);
* the MD5 hex digest (Python `hashlib`, library code) is abstracted to an
  injective digest, modelled as the identity on its input string;
* network responses, filesystem write outcomes and wall-clock values are
  inputs supplied by an explicit environment (the "world");
* `asyncio.sleep` / `time.sleep` are state-preserving and are elided;
  logging and `print` calls are elided.
-/

namespace SnScrape

/-! ## Python-truthiness helpers -/

/-- Python truthiness of an optional string (`None` and `''` are falsy). -/
def truthyOptStr (s : Option String) : Bool :=
  match s with
  | some v => v ≠ ""
  | none => false

/-- Python `a or b` on optional strings: `b` when `a` is falsy. -/
def pyOrStr (a b : Option String) : Option String :=
  if truthyOptStr a then a else b

/-- Python `l or None`: an empty list is falsy and becomes `None`. -/
def listOrNone {α : Type} (l : List α) : Option (List α) :=
  if l.isEmpty then none else some l

/-! ## Character classes used by `_extract_keyphrase` (ASCII approximation
of Python's `\w` and `\s`). -/

def isWordChar (c : Char) : Bool :=
  c.isAlphanum || c = '_'

def isSpaceChar (c : Char) : Bool :=
  c = ' ' || c = '\t' || c = '\n' || c = '\r' || c = '\x0b' || c = '\x0c'

/-- An auxiliary bound for termination of the regex-substitution scanner. -/
theorem length_dropWhile_le_len (p : Char → Bool) :
    ∀ l : List Char, (List.dropWhile p l).length ≤ l.length := by
  intro l
  induction l with
  | nil => simp [List.dropWhile]
  | cons c cs ih =>
    by_cases h : p c
    · simp only [List.dropWhile, h]
      exact Nat.le_succ_of_le ih
    · simp [List.dropWhile, h]

/-- Does `re` match `http\S+` at this position? (literal `http`, then at
least one non-whitespace character). -/
def httpMatch (cs : List Char) : Bool :=
  match cs with
  | 'h' :: 't' :: 't' :: 'p' :: d :: _ => !(isSpaceChar d)
  | _ => false

/-- Does `re` match `www\S+` at this position? -/
def wwwMatch (cs : List Char) : Bool :=
  match cs with
  | 'w' :: 'w' :: 'w' :: d :: _ => !(isSpaceChar d)
  | _ => false

/-- Does `re` match `@\w+` at this position? -/
def atMatch (cs : List Char) : Bool :=
  match cs with
  | '@' :: d :: _ => isWordChar d
  | _ => false

/-- `re.sub(r'http\S+|www\S+|@\w+', '', text)` as a left-to-right scanner:
at each position the leftmost alternative that matches is removed
(non-overlapping), otherwise the character is kept. -/
def stripUrlsMentions (cs : List Char) : List Char :=
  match cs with
  | [] => []
  | c :: rest =>
    if httpMatch (c :: rest) then
      stripUrlsMentions (List.dropWhile (fun d => !(isSpaceChar d)) ((c :: rest).drop 4))
    else if wwwMatch (c :: rest) then
      stripUrlsMentions (List.dropWhile (fun d => !(isSpaceChar d)) ((c :: rest).drop 3))
    else if atMatch (c :: rest) then
      stripUrlsMentions (List.dropWhile isWordChar rest)
    else
      c :: stripUrlsMentions rest
termination_by cs.length
decreasing_by
  · have h1 := length_dropWhile_le_len (fun d => !(isSpaceChar d)) ((c :: rest).drop 4)
    simp only [List.length_drop, List.length_cons] at h1 ⊢
    omega
  · have h1 := length_dropWhile_le_len (fun d => !(isSpaceChar d)) ((c :: rest).drop 3)
    simp only [List.length_drop, List.length_cons] at h1 ⊢
    omega
  · have h1 := length_dropWhile_le_len isWordChar rest
    simp only [List.length_cons] at h1 ⊢
    omega
  · simp only [List.length_cons]
    omega

/-- `.strip()`: remove leading and trailing whitespace. -/
def pyStrip (cs : List Char) : List Char :=
  ((cs.dropWhile isSpaceChar).reverse.dropWhile isSpaceChar).reverse

/-- `.split()` with no argument: split on whitespace runs, discarding
empty fields. -/
def pySplitWs (cs : List Char) : List (List Char) :=
  match h : cs.dropWhile isSpaceChar with
  | [] => []
  | c :: rest =>
    (c :: rest.takeWhile (fun d => !(isSpaceChar d))) ::
      pySplitWs (rest.dropWhile (fun d => !(isSpaceChar d)))
termination_by cs.length
decreasing_by
  have h1 : (c :: rest).length ≤ cs.length := h ▸ length_dropWhile_le_len _ cs
  exact Nat.lt_of_lt_of_le
    (Nat.lt_succ_of_le (length_dropWhile_le_len _ rest)) h1

/-- Python `' '.join(words)`. -/
def joinSpace (ws : List (List Char)) : String :=
  String.mk (List.intercalate [' '] ws)

/-! ## Raw-response data model (the JSON shapes consumed by the scraper) -/

/-- One entry of `entities['urls']`; `_extract_urls` reads
`url_data.get('expanded_url', url_data.get('url', ''))`. -/
structure UrlEntity where
  expanded_url : Option String
  url : Option String
deriving Repr, DecidableEq

/-- The tweet `entities` object; the hashtag (resp. mention) dicts are
represented by their `tag` (resp. `username`) field, the only one read. -/
structure Entities where
  hashtags : List String
  mentions : List String
  urls : List UrlEntity
deriving Repr, DecidableEq

/-- `user['public_metrics']`. -/
structure UserPublicMetrics where
  followers_count : Option Nat
  following_count : Option Nat
  tweet_count : Option Nat
deriving Repr, DecidableEq

/-- One entry of `includes['users']`. -/
structure RawUser where
  id : Option String
  username : Option String
  name : Option String
  verified : Option Bool
  public_metrics : Option UserPublicMetrics
  profile_image_url : Option String
deriving Repr, DecidableEq

/-- One entry of `includes['media']`. -/
structure RawMedia where
  media_key : Option String
  type : Option String
  url : Option String
  preview_image_url : Option String
  width : Option Nat
  height : Option Nat
  duration_ms : Option Nat
deriving Repr, DecidableEq

/-- The `includes` expansion object; a `none` list models an absent key
(the code tests `'users' in includes` / `'media' in includes`). -/
structure Includes where
  users : Option (List RawUser)
  media : Option (List RawMedia)
deriving Repr, DecidableEq

/-- `tweet['public_metrics']`. -/
structure TweetPublicMetrics where
  like_count : Option Nat
  retweet_count : Option Nat
  reply_count : Option Nat
  quote_count : Option Nat
  bookmark_count : Option Nat
  impression_count : Option Nat
deriving Repr, DecidableEq

/-- Outcome of `datetime.fromisoformat(created_at_str.replace('Z','+00:00'))`
on the raw `created_at` field (stdlib behaviour abstracted to its
outcome): `missing` — the field is absent, so `created_at_str` is `None`
and `None.replace` raises `AttributeError` (which the
`except (ValueError, TypeError)` handler does *not* catch);
`unparsable s` — present but the parse raises `ValueError` (caught);
`parsed t` — present and parses to the instant `t`. -/
inductive RawCreatedAt where
  | missing : RawCreatedAt
  | unparsable : String → RawCreatedAt
  | parsed : Nat → RawCreatedAt
deriving Repr, DecidableEq

/-- `tweet['attachments']`. -/
structure Attachments where
  media_keys : Option (List String)
deriving Repr, DecidableEq

/-- One raw tweet object of a search response. `referenced_tweets` is
represented by the truthiness of the list, the only thing the code reads. -/
structure RawTweet where
  id : Option String
  text : Option String
  lang : Option String
  possibly_sensitive : Option Bool
  author_id : Option String
  created_at : RawCreatedAt
  entities : Option Entities
  public_metrics : Option TweetPublicMetrics
  attachments : Option Attachments
  in_reply_to_user_id : Option String
  referenced_tweets : Bool
deriving Repr, DecidableEq

/-! ## Extraction helpers -/

/-- A Python runtime error escaping from a helper (item-local). -/
abbrev PyErr := String

/-- `_extract_hashtags`: on `entities = None`, `entities.get` raises
`AttributeError`; the annotation `Optional[Dict]` notwithstanding, there is
no `None` guard. -/
def extract_hashtags (entities : Option Entities) : Except PyErr (List String) :=
  match entities with
  | none => .error "AttributeError"
  | some e => .ok e.hashtags

/-- `_extract_mentions` (same `None` behaviour). -/
def extract_mentions (entities : Option Entities) : Except PyErr (List String) :=
  match entities with
  | none => .error "AttributeError"
  | some e => .ok e.mentions

/-- `_extract_urls` (same `None` behaviour);
`url_data.get('expanded_url', url_data.get('url', ''))`. -/
def extract_urls (entities : Option Entities) : Except PyErr (List String) :=
  match entities with
  | none => .error "AttributeError"
  | some e => .ok (e.urls.map (fun u => u.expanded_url.getD (u.url.getD "")))

/-- The `user_info` record built by `_extract_user_info`. -/
structure UserInfo where
  username : Option String
  name : Option String
  verified : Bool
  followers_count : Option Nat
  following_count : Option Nat
  tweet_count : Option Nat
  profile_image_url : Option String
deriving Repr, DecidableEq

/-- The all-default `user_info` dict. -/
def UserInfo.default : UserInfo :=
  { username := none, name := none, verified := false,
    followers_count := none, following_count := none,
    tweet_count := none, profile_image_url := none }

/-- `_extract_user_info`: find the first user of `includes['users']` whose
`id` equals the tweet's `author_id` (Python `==`, where `None == None` is
true) and copy its fields; otherwise all defaults. -/
def extract_user_info (tweet : RawTweet) (includes : Option Includes) : UserInfo :=
  match includes with
  | none => UserInfo.default
  | some inc =>
    match inc.users with
    | none => UserInfo.default
    | some users =>
      match users.find? (fun u => u.id == tweet.author_id) with
      | none => UserInfo.default
      | some u =>
        { username := u.username, name := u.name,
          verified := u.verified.getD false,
          followers_count := match u.public_metrics with
            | some pm => pm.followers_count
            | none => none,
          following_count := match u.public_metrics with
            | some pm => pm.following_count
            | none => none,
          tweet_count := match u.public_metrics with
            | some pm => pm.tweet_count
            | none => none,
          profile_image_url := u.profile_image_url }

/-- An `images`/`gifs` entry of `media_info`. -/
structure ImageInfo where
  url : String
  width : Option Nat
  height : Option Nat
deriving Repr, DecidableEq

/-- A `videos` entry of `media_info`. -/
structure VideoInfo where
  url : String
  duration_ms : Option Nat
  width : Option Nat
  height : Option Nat
deriving Repr, DecidableEq

/-- The `media_info` dict (`polls` is declared but never filled). -/
structure MediaInfo where
  images : List ImageInfo
  videos : List VideoInfo
  gifs : List ImageInfo
  polls : List Unit
deriving Repr, DecidableEq

def MediaInfo.empty : MediaInfo :=
  { images := [], videos := [], gifs := [], polls := [] }

/-- One step of the `for media in includes.get('media', [])` loop of
`_extract_media_info`. -/
def media_step (tweet_media_keys : List String) (acc : MediaInfo)
    (media : RawMedia) : MediaInfo :=
  if (match media.media_key with
      | some k => tweet_media_keys.contains k
      | none => false) then
    let media_url := pyOrStr media.url media.preview_image_url
    if truthyOptStr media_url then
      let u := media_url.getD ""
      if media.type == some "photo" then
        { acc with images := acc.images ++
            [{ url := u, width := media.width, height := media.height }] }
      else if media.type == some "video" then
        { acc with videos := acc.videos ++
            [{ url := u, duration_ms := media.duration_ms,
               width := media.width, height := media.height }] }
      else if media.type == some "animated_gif" then
        { acc with gifs := acc.gifs ++
            [{ url := u, width := media.width, height := media.height }] }
      else acc
    else acc
  else acc

/-- `_extract_media_info`: empty unless `includes` has media, and the tweet
has a truthy (non-empty) `attachments.media_keys` list. -/
def extract_media_info (tweet : RawTweet) (includes : Option Includes) : MediaInfo :=
  let keysTruthy := match tweet.attachments with
    | none => false
    | some att =>
      match att.media_keys with
      | none => false
      | some ks => !ks.isEmpty
  match includes with
  | none => MediaInfo.empty
  | some inc =>
    match inc.media with
    | none => MediaInfo.empty
    | some medias =>
      if keysTruthy then
        let tweet_media_keys :=
          match tweet.attachments with
          | none => []
          | some att => att.media_keys.getD []
        medias.foldl (media_step tweet_media_keys) MediaInfo.empty
      else MediaInfo.empty

/-- `_extract_keyphrase`: strip URL/mention tokens, keep only word
characters, whitespace and `#`, then the first `max_words` words. -/
def extract_keyphrase (text : String) (max_words : Nat := 5) : String :=
  if text = "" then ""
  else
    let cleaned1 := stripUrlsMentions text.data
    let cleaned2 := pyStrip (cleaned1.filter
      (fun c => isWordChar c || isSpaceChar c || c = '#'))
    let words := (pySplitWs cleaned2).take max_words
    if words.isEmpty then "" else joinSpace words

/-- The fully-defaulted metrics dict built in `_process_tweet`. -/
structure Metrics where
  like_count : Nat
  retweet_count : Nat
  reply_count : Nat
  quote_count : Nat
  bookmark_count : Nat
  impression_count : Nat
deriving Repr, DecidableEq

/-- `_calculate_engagement_score` (integer-valued: all weights and counts
are integers, though Python annotates the result `float`). -/
def calculate_engagement_score (m : Metrics) : Nat :=
  m.like_count * 1 + m.retweet_count * 2 + m.reply_count * 3 + m.quote_count * 2

/-- MD5 hex digest of `hashlib` (library code), abstracted to an injective
digest and modelled as the identity on its input string. -/
def md5_hexdigest (s : String) : String := s

/-! ## The normalized record (the `tweet_data` dict of `_process_tweet`).
The datetime-valued fields (`created_at`, `timestamp`, `date`, `time`,
`time_text`, `search_timestamp`) are ISO/strftime renderings of an instant
in the source; the renderings are injective library functions and the
fields are carried as the underlying instant (`Nat`). -/

structure Record where
  uid : String
  tweet_id : String
  url : Option String
  text : String
  lang : Option String
  possibly_sensitive : Bool
  author_id : String
  username : Option String
  name : Option String
  handle : Option String
  verified : Bool
  profile_image_url : Option String
  author_followers_count : Option Nat
  author_following_count : Option Nat
  author_tweet_count : Option Nat
  created_at : Nat
  timestamp : Nat
  date : Nat
  time : Nat
  time_text : Nat
  metrics : Metrics
  engagement_score : Nat
  likes : Nat
  retweets : Nat
  replies : Nat
  quotes : Nat
  bookmarks : Nat
  impressions : Nat
  hashtags : List String
  mentions : List String
  urls : List String
  keyphrase : String
  word_count : Nat
  char_count : Nat
  has_media : Bool
  media_count : Nat
  images : Option (List ImageInfo)
  videos : Option (List VideoInfo)
  gifs : Option (List ImageInfo)
  keyword : String
  search_timestamp : Nat
  source_type : String
  source_domain : String
  platform : String
  content_type : String
  is_retweet : Bool
  is_reply : Bool
  is_quote : Bool
  has_hashtags : Bool
  has_mentions : Bool
  has_urls : Bool
deriving Repr, DecidableEq

/-- `_process_tweet`, acting on the `processed_tweet_ids` set (modelled as
a list with membership) and the wall clock `now` (`datetime.now()`).
Returns the new set together with either `.ok none` (falsy or already-seen
id: silently dropped), `.ok (some record)`, or `.error` (an exception
escaping the method body — e.g. the `AttributeError` raised by the
extraction helpers when `entities` is absent; note the id is inserted into
the set *before* the helpers run). -/
def process_tweet (now : Nat) (seen : List String) (tweet : RawTweet)
    (includes : Option Includes) (keyword : String) :
    Except PyErr (Option Record) × List String :=
  match tweet.id with
  | none => (.ok none, seen)
  | some tweet_id =>
    if tweet_id = "" then (.ok none, seen)
    else if tweet_id ∈ seen then (.ok none, seen)
    else
      let seen' := tweet_id :: seen
      let user_info := extract_user_info tweet includes
      let media_info := extract_media_info tweet includes
      -- the three entity helpers are called in this order; the first
      -- exception (if any) is the one escaping the method body
      match extract_hashtags tweet.entities, extract_mentions tweet.entities,
            extract_urls tweet.entities with
      | .error err, _, _ => (.error err, seen')
      | .ok _, .error err, _ => (.error err, seen')
      | .ok _, .ok _, .error err => (.error err, seen')
      | .ok hashtags, .ok mentions, .ok urls =>
        let pm := tweet.public_metrics
        let metrics : Metrics :=
          { like_count := (pm.bind (fun p => p.like_count)).getD 0,
            retweet_count := (pm.bind (fun p => p.retweet_count)).getD 0,
            reply_count := (pm.bind (fun p => p.reply_count)).getD 0,
            quote_count := (pm.bind (fun p => p.quote_count)).getD 0,
            bookmark_count := (pm.bind (fun p => p.bookmark_count)).getD 0,
            impression_count := (pm.bind (fun p => p.impression_count)).getD 0 }
        let engagement_score := calculate_engagement_score metrics
        -- lines 183-190: a present-but-unparsable string raises
        -- ValueError from fromisoformat, caught by the handler and
        -- replaced by the wall clock; an absent field makes
        -- created_at_str None, and None.replace raises AttributeError,
        -- which `except (ValueError, TypeError)` does not catch, so the
        -- exception escapes the method (the id stays in the set)
        let created_at_opt : Option Nat :=
          match tweet.created_at with
          | .parsed t => some t
          | .missing => none
          | .unparsable _ => some now
        match created_at_opt with
        | none => (.error "AttributeError", seen')
        | some created_at =>
          let unique_id := md5_hexdigest (tweet_id ++ "_" ++ keyword)
          let text := tweet.text.getD ""
          (.ok (some
            { uid := unique_id,
              tweet_id := tweet_id,
              url := if truthyOptStr user_info.username then
                  some ("https://twitter.com/" ++ user_info.username.getD "" ++
                    "/status/" ++ tweet_id)
                else none,
              text := text,
              lang := tweet.lang,
              possibly_sensitive := tweet.possibly_sensitive.getD false,
              author_id := tweet.author_id.getD "",
              username := user_info.username,
              name := user_info.name,
              handle := if truthyOptStr user_info.username then
                  some ("@" ++ user_info.username.getD "")
                else none,
              verified := user_info.verified,
              profile_image_url := user_info.profile_image_url,
              author_followers_count := user_info.followers_count,
              author_following_count := user_info.following_count,
              author_tweet_count := user_info.tweet_count,
              created_at := created_at,
              timestamp := created_at,
              date := created_at,
              time := created_at,
              time_text := created_at,
              metrics := metrics,
              engagement_score := engagement_score,
              likes := metrics.like_count,
              retweets := metrics.retweet_count,
              replies := metrics.reply_count,
              quotes := metrics.quote_count,
              bookmarks := metrics.bookmark_count,
              impressions := metrics.impression_count,
              hashtags := hashtags,
              mentions := mentions,
              urls := urls,
              keyphrase := extract_keyphrase text,
              word_count := (pySplitWs text.data).length,
              char_count := text.length,
              has_media := !(media_info.images.isEmpty) ||
                !(media_info.videos.isEmpty) || !(media_info.gifs.isEmpty),
              media_count := media_info.images.length + media_info.videos.length +
                media_info.gifs.length,
              images := listOrNone media_info.images,
              videos := listOrNone media_info.videos,
              gifs := listOrNone media_info.gifs,
              keyword := keyword,
              search_timestamp := now,
              source_type := "social_network",
              source_domain := "twitter.com",
              platform := "twitter",
              content_type := "tweet",
              is_retweet := text.startsWith "RT @",
              is_reply := truthyOptStr tweet.in_reply_to_user_id,
              is_quote := tweet.referenced_tweets,
              has_hashtags := !hashtags.isEmpty,
              has_mentions := !mentions.isEmpty,
              has_urls := !urls.isEmpty }), seen')

/-! ## Rate-limit state and the fetch capability -/

/-- The rate-limit fields of the scraper (`requests_remaining` is a Python
`int`, so modelled as `Int`; header values are counts and modelled `Nat`). -/
structure RateState where
  requests_remaining : Int
  rate_limit_reset : Nat
deriving Repr, DecidableEq

/-- `_check_rate_limit`: the pre-fetch gate. Both exhausted branches (reset
time in the future: sleep until it; reset time passed) reset the local
counters to the conservative defaults; the sleep itself is elided. -/
def check_rate_limit (t : Nat) (st : RateState) : RateState :=
  if st.requests_remaining ≤ 0 ∧ t < st.rate_limit_reset then
    { requests_remaining := 900, rate_limit_reset := 0 }
  else if st.requests_remaining ≤ 0 then
    { requests_remaining := 900, rate_limit_reset := 0 }
  else st

/-- The configuration fields set in `__init__`. -/
structure Config where
  max_results_per_request : Nat
  total_limit : Nat
  batch_size : Nat
deriving Repr, DecidableEq

/-- The `__init__` values. -/
def defaultConfig : Config :=
  { max_results_per_request := 100, total_limit := 1000, batch_size := 500 }

/-- One page of a 200 response of `/2/tweets/search/recent`: `data` (an
absent or empty `data` key is falsy and modelled by the empty list),
`includes`, `meta.next_token`, and the `x-rate-limit-remaining` header. -/
structure Page where
  data : List RawTweet
  includes : Option Includes
  next_token : Option String
  remaining_hdr : Option Nat
deriving Repr, DecidableEq

/-- What the network returns for one attempt of `_fetch_tweets_async`:
a 200 page, a 429 (with its optional `x-rate-limit-reset` header), a 403,
another HTTP error status, or a transport failure of the class retried by
tenacity (`ClientConnectorError` / `ServerDisconnectedError`). -/
inductive AttemptOutcome where
  | ok : Page → AttemptOutcome
  | rateLimited : Option Nat → AttemptOutcome
  | authFailure : AttemptOutcome
  | httpFailure : Nat → String → AttemptOutcome
  | transient : AttemptOutcome
deriving Repr, DecidableEq

/-- One attempt of the world's script: the value of `time.time()` during
the attempt and the network outcome. -/
structure Attempt where
  t : Nat
  outcome : AttemptOutcome
deriving Repr, DecidableEq

/-- The world's script for one `_fetch_tweets_async` call. Tenacity is
configured with `stop_after_attempt(2)`, so at most two attempts run; the
second is consulted only when the first raises a retryable error. -/
structure FetchSpec where
  a1 : Attempt
  a2 : Attempt
deriving Repr, DecidableEq

/-- The exception escaping a fetch, as `scrape_tweets` sees it:
`clientError` is a plain `aiohttp.ClientError` with the given message
(raised for 429 and 403); `responseError` is `aiohttp.ClientResponseError`
(a `ClientError` subclass) for other non-200 statuses; `transientErr` is
the retryable transport class; `retryErr` is the `tenacity.RetryError`
(not a `ClientError`) raised when the attempt ceiling is exhausted. -/
inductive FetchErr where
  | clientError : String → FetchErr
  | responseError : Nat → String → FetchErr
  | transientErr : FetchErr
  | retryErr : FetchErr → FetchErr
deriving Repr, DecidableEq

/-- One attempt of the body of `_fetch_tweets_async`: run the pre-fetch
gate, then dispatch on the response. A 429 records the reset time (header,
defaulting to `now + 900`), zeroes `requests_remaining`, sleeps until the
reset (elided) and raises `ClientError('Rate limit exceeded')`; a 403
raises `ClientError('Authentication error')`; another non-200 raises
`ClientResponseError`; a 200 stores the `x-rate-limit-remaining` header,
defaulting to the current value minus one. -/
def fetch_attempt (st : RateState) (a : Attempt) :
    Except FetchErr Page × RateState :=
  let st := check_rate_limit a.t st
  match a.outcome with
  | .rateLimited hdr =>
    let reset_time := hdr.getD (a.t + 900)
    (.error (.clientError "Rate limit exceeded"),
      { requests_remaining := 0, rate_limit_reset := reset_time })
  | .authFailure => (.error (.clientError "Authentication error"), st)
  | .httpFailure status body => (.error (.responseError status body), st)
  | .transient => (.error .transientErr, st)
  | .ok page =>
    let rem : Int :=
      match page.remaining_hdr with
      | some n => (n : Int)
      | none => st.requests_remaining - 1
    (.ok page, { st with requests_remaining := rem })

/-- `_fetch_tweets_async` under its tenacity decorator
(`stop_after_attempt(2)`, retry only on the transient transport class,
exponential backoff elided). Also returns the number of attempts run.
When both attempts raise the retryable class, tenacity raises
`RetryError` wrapping the last one. -/
def fetch_tweets_async (st : RateState) (spec : FetchSpec) :
    Except FetchErr Page × RateState × Nat :=
  match fetch_attempt st spec.a1 with
  | (.error .transientErr, st1) =>
    match fetch_attempt st1 spec.a2 with
    | (.error .transientErr, st2) => (.error (.retryErr .transientErr), st2, 2)
    | (r, st2) => (r, st2, 2)
  | (r, st1) => (r, st1, 1)

/-! ## Persistence -/

/-- The durable store: the batch files written so far, as
(batch number, contents) pairs, then the final full-dataset file. -/
structure Durable where
  batches : List (Nat × List Record)
  full_file : Option (List Record)
deriving Repr, DecidableEq

/-- Outcomes of write attempts: `w i` tells whether the `i`-th `open`+
`json.dump` attempt of one save call succeeds. -/
def WriteEnv : Type := Nat → Bool

/-- The attempt loop of `_save_batch` over a list of attempt outcomes:
the first success writes the file and returns; a failure sleeps 2 s
(elided) and retries; after the list is exhausted the batch is given up
(durable store unchanged). -/
def save_batch_go (durable : List (Nat × List Record))
    (entry : Nat × List Record) : List Bool → List (Nat × List Record)
  | [] => durable
  | okw :: rest =>
    if okw then durable ++ [entry] else save_batch_go durable entry rest

/-- `_save_batch(batch_data, batch_num)`: three write attempts. -/
def save_batch (w : WriteEnv) (durable : List (Nat × List Record))
    (batch_data : List Record) (batch_num : Nat) : List (Nat × List Record) :=
  save_batch_go durable (batch_num, batch_data) [w 0, w 1, w 2]

/-! ## The collector state and main loop -/

/-- The mutable fields of `TwitterScraperOptimized` together with the
loop-local batch buffer and counters. `save_calls` counts the
`_save_batch` calls made so far (it indexes the write environment and is
not a field of the Python object). -/
structure ScrapeState where
  tweets_data : List Record
  processed_tweet_ids : List String
  rate : RateState
  batch_data : List Record
  batch_num : Nat
  save_calls : Nat
  durable : Durable
deriving Repr, DecidableEq

/-- The state after `__init__` (plus empty loop-local buffers). -/
def initState : ScrapeState :=
  { tweets_data := [], processed_tweet_ids := [],
    rate := { requests_remaining := 900, rate_limit_reset := 0 },
    batch_data := [], batch_num := 0, save_calls := 0,
    durable := { batches := [], full_file := none } }

/-- The per-save-call write environment: `w i j` is the outcome of write
attempt `j` of save call number `i`. -/
def SaveEnv : Type := Nat → Nat → Bool

/-- Flush the pending batch: `_save_batch(batch_data, batch_num)` followed
by `batch_data = []` and `batch_num += 1` in the caller. -/
def flush_batch (w : SaveEnv) (st : ScrapeState) : ScrapeState :=
  { st with
    durable := { st.durable with
      batches := save_batch (w st.save_calls) st.durable.batches
        st.batch_data st.batch_num },
    batch_data := [], batch_num := st.batch_num + 1,
    save_calls := st.save_calls + 1 }

/-- The per-future body of the result-collection loop (lines 342-353 of
`twit_posts.py`), iterated over the page's tweets in submission order:
process the tweet (an exception is logged and the item skipped), append a
surviving record to the accumulator and the batch buffer, flush a full
batch, and stop consuming results once the accumulator reaches
`total_limit`. -/
def process_page (cfg : Config) (keyword : String) (now : Nat) (w : SaveEnv)
    (includes : Option Includes) : List RawTweet → ScrapeState → ScrapeState
  | [], st => st
  | tweet :: rest, st =>
    let pr := process_tweet now st.processed_tweet_ids tweet includes keyword
    let st := { st with processed_tweet_ids := pr.2 }
    match pr.1 with
    | .error _ => process_page cfg keyword now w includes rest st
    | .ok none => process_page cfg keyword now w includes rest st
    | .ok (some r) =>
      let st := { st with tweets_data := st.tweets_data ++ [r],
                          batch_data := st.batch_data ++ [r] }
      let st := if st.batch_data.length ≥ cfg.batch_size then
          flush_batch w st
        else st
      if st.tweets_data.length ≥ cfg.total_limit then st
      else process_page cfg keyword now w includes rest st

/-- The result of a run: the list returned by `scrape_tweets`, the final
state, and the trace of `next_token` cursors passed to the successive
`_fetch_tweets_async` calls. -/
structure RunResult where
  result : List Record
  st : ScrapeState
  trace : List (Option String)
deriving Repr, DecidableEq

/-- The `while len(self.tweets_data) < self.total_limit` loop of
`scrape_tweets`. Each iteration consumes one `FetchSpec` of the world's
script; every exception escaping the fetch breaks the loop (`ClientError`
branches and the generic `except Exception` differ only in logging);
a falsy (absent or empty) `data` key breaks; a falsy `next_token` breaks
after processing. An exhausted script ends the run (only finite worlds
are modelled). -/
def scrape_loop (cfg : Config) (keyword : String) (now : Nat) (w : SaveEnv) :
    List FetchSpec → ScrapeState → Option String → List (Option String) →
    ScrapeState × List (Option String)
  | specs, st, next_token, trace =>
    if st.tweets_data.length ≥ cfg.total_limit then (st, trace)
    else
      match specs with
      | [] => (st, trace)
      | spec :: rest =>
        let trace := trace ++ [next_token]
        let fr := fetch_tweets_async st.rate spec
        let st := { st with rate := fr.2.1 }
        match fr.1 with
        | .error _ => (st, trace)
        | .ok page =>
          if page.data.isEmpty then (st, trace)
          else
            let st := process_page cfg keyword now w page.includes page.data st
            let next_token := page.next_token
            if truthyOptStr next_token then
              scrape_loop cfg keyword now w rest st next_token trace
            else (st, trace)

/-- The final-dataset write (lines 380-391): when the accumulator is
non-empty, try up to three times to write it as the full dataset file;
`wf` gives the outcomes of the three attempts. -/
def write_full (wf : Nat → Bool) (st : ScrapeState) : ScrapeState :=
  if st.tweets_data.isEmpty then st
  else if wf 0 || wf 1 || wf 2 then
    { st with durable := { st.durable with full_file := some st.tweets_data } }
  else st

/-- The epilogue of `scrape_tweets` (lines 378-392): flush a non-empty
pending batch, then write the complete dataset, and return
`self.tweets_data`. -/
def scrape_epilogue (w : SaveEnv) (wf : Nat → Bool) (st : ScrapeState) :
    ScrapeState :=
  write_full wf (if st.batch_data.isEmpty then st else flush_batch w st)

/-- What the probe endpoint of `_check_rate_limit_status` returns: a 200
(with optional `x-rate-limit-remaining` / `x-rate-limit-reset` headers),
a 429 at wall-clock `t` (with its optional reset header), another HTTP
status, or an `aiohttp.ClientError`. -/
inductive ProbeOutcome where
  | ok : Option Nat → Option Nat → ProbeOutcome
  | rateLimited : Nat → Option Nat → ProbeOutcome
  | httpFailure : ProbeOutcome
  | netFailure : ProbeOutcome
deriving Repr, DecidableEq

/-- `_check_rate_limit_status`: the pre-run credential/quota probe.
Returns `True` only on a 200, recording the rate-limit headers (defaults
900 / 0); a 429 records the reset header (default `t + 900`); other
failures leave the state unchanged. -/
def check_rate_limit_status (st : RateState) (pr : ProbeOutcome) :
    Bool × RateState :=
  match pr with
  | .ok remHdr resetHdr =>
    (true, { requests_remaining := ((remHdr.getD 900 : Nat) : Int),
             rate_limit_reset := resetHdr.getD 0 })
  | .rateLimited t resetHdr =>
    (false, { st with rate_limit_reset := resetHdr.getD (t + 900) })
  | .httpFailure => (false, st)
  | .netFailure => (false, st)

/-- `scrape_tweets(keyword, days_back)` over a scripted world: correct the
known keyword typo, probe credentials (a failed probe returns `[]` before
any search fetch), run the main loop from a `None` cursor, and run the
epilogue. `days_back` only shapes the query string (elided). -/
def scrape_tweets (cfg : Config) (keyword : String) (now : Nat)
    (probe : ProbeOutcome) (specs : List FetchSpec) (w : SaveEnv)
    (wf : Nat → Bool) (st : ScrapeState) : RunResult :=
  let keyword := if keyword.toLower = "miroladdodik" then "milorad dodik"
    else keyword
  let pres := check_rate_limit_status st.rate probe
  let st := { st with rate := pres.2 }
  if !pres.1 then { result := [], st := st, trace := [] }
  else
    let lr := scrape_loop cfg keyword now w specs st none []
    let stf := scrape_epilogue w wf lr.1
    { result := stf.tweets_data, st := stf, trace := lr.2 }

/-! ## Views and invariants used by the theorems -/

/-- The non-durable part of the collector state (everything except the
batch files and the final file on disk). -/
def ScrapeState.core (st : ScrapeState) :
    List Record × List String × RateState × List Record × Nat × Nat :=
  (st.tweets_data, st.processed_tweet_ids, st.rate, st.batch_data,
    st.batch_num, st.save_calls)

/-- Dedupe invariant: tweet ids are unique in the accumulator and in the
pending batch buffer and in each persisted batch; every accumulated or
pending record's id has been recorded in `processed_tweet_ids`; pending
records are also in the accumulator. -/
def RecInv (st : ScrapeState) : Prop :=
  (st.tweets_data.map Record.tweet_id).Nodup ∧
  (∀ r ∈ st.tweets_data, r.tweet_id ∈ st.processed_tweet_ids) ∧
  (st.batch_data.map Record.tweet_id).Nodup ∧
  (∀ r ∈ st.batch_data, r.tweet_id ∈ st.processed_tweet_ids) ∧
  (∀ b ∈ st.durable.batches, (b.2.map Record.tweet_id).Nodup) ∧
  (∀ r ∈ st.batch_data, r ∈ st.tweets_data)

/-! ## Concrete scenario inputs used by counterexamples and witnesses -/

def emptyEntities : Entities := { hashtags := [], mentions := [], urls := [] }

/-- A minimal well-formed raw tweet with id `i`. -/
def sampleTweet (i : Nat) : RawTweet :=
  { id := some (toString i), text := some "hello world", lang := none,
    possibly_sensitive := none, author_id := none,
    created_at := .parsed 1700000000, entities := some emptyEntities,
    public_metrics := none, attachments := none,
    in_reply_to_user_id := none, referenced_tweets := false }

/-- `sampleTweet 1` with the `created_at` field absent. -/
def sampleTweetNoDate : RawTweet := { sampleTweet 1 with created_at := .missing }

/-- `sampleTweet 1` with an unparsable `created_at` string. -/
def sampleTweetBadDate : RawTweet :=
  { sampleTweet 1 with created_at := .unparsable "not-a-date" }

/-- `sampleTweet 1` with the `entities` field absent. -/
def sampleTweetNoEnt : RawTweet := { sampleTweet 1 with entities := none }

/-- A page of 12 distinct tweets and no continuation token. -/
def page12 : Page :=
  { data := (List.range 12).map sampleTweet, includes := none,
    next_token := none, remaining_hdr := some 500 }

/-- A one-tweet page whose continuation token is `T2`. -/
def pageOne : Page :=
  { data := [sampleTweet 0], includes := none, next_token := some "T2",
    remaining_hdr := some 500 }

/-- `__init__` configuration with `batch_size` set to 5. -/
def cfgBatch5 : Config := { defaultConfig with batch_size := 5 }

/-- A filesystem on which every write attempt succeeds. -/
def allOkSaves : SaveEnv := fun _ _ => true

/-- A filesystem on which every write attempt fails. -/
def allFailSaves : SaveEnv := fun _ _ => false

/-- A fetch script entry that never retries into its second attempt. -/
def oneShot (o : AttemptOutcome) : FetchSpec :=
  { a1 := { t := 0, outcome := o }, a2 := { t := 0, outcome := .transient } }

/-- The 12-tweet run with `batch_size = 5` (claim C3's scenario). -/
def runBatch12 : RunResult :=
  scrape_tweets cfgBatch5 "kw" 42 (.ok none none) [oneShot (.ok page12)]
    allOkSaves (fun _ => true) initState

/-- A run whose second fetch is rate limited while a third page is still
available in the world (claim C1's scenario). -/
def runRateLimited : RunResult :=
  scrape_tweets defaultConfig "kw" 42 (.ok none none)
    [oneShot (.ok pageOne), oneShot (.rateLimited (some 999)),
     oneShot (.ok pageOne)]
    allOkSaves (fun _ => true) initState

/-! ## Helper lemmas about `process_tweet` -/

/-- A fresh, truthy id with entities and a non-absent `created_at` yields
a record; its id is the tweet's, and its timestamps are the parsed
instant, falling back to the processing wall clock when the string is
unparsable. -/
theorem process_tweet_fresh (now : Nat) (seen : List String) (tweet : RawTweet)
    (includes : Option Includes) (kw tid : String) (e : Entities)
    (hid : tweet.id = some tid) (hne : tid ≠ "") (hseen : tid ∉ seen)
    (hent : tweet.entities = some e)
    (hca : tweet.created_at ≠ RawCreatedAt.missing) :
    ∃ r : Record,
      process_tweet now seen tweet includes kw = (.ok (some r), tid :: seen) ∧
      r.tweet_id = tid ∧
      r.created_at = (match tweet.created_at with
        | .parsed t => t
        | .missing => now
        | .unparsable _ => now) ∧
      r.timestamp = r.created_at ∧
      r.search_timestamp = now := by
  rcases hcc : tweet.created_at with _ | sct | t
  · exact absurd hcc hca
  · simp only [process_tweet, hid, hne, hseen, hent, hcc, extract_hashtags,
      extract_mentions, extract_urls, if_false, ite_false]
    exact ⟨_, rfl, rfl, rfl, rfl, rfl⟩
  · simp only [process_tweet, hid, hne, hseen, hent, hcc, extract_hashtags,
      extract_mentions, extract_urls, if_false, ite_false]
    exact ⟨_, rfl, rfl, rfl, rfl, rfl⟩

/-- The second component of `process_tweet` is either the unchanged set or
the set with the tweet's fresh truthy id inserted. -/
theorem process_tweet_seen (now : Nat) (seen : List String) (tweet : RawTweet)
    (includes : Option Includes) (kw : String) :
    (process_tweet now seen tweet includes kw).2 = seen ∨
    ∃ tid, tweet.id = some tid ∧ tid ≠ "" ∧ tid ∉ seen ∧
      (process_tweet now seen tweet includes kw).2 = tid :: seen := by
  rcases htid : tweet.id with _ | tid
  · left; simp [process_tweet, htid]
  · by_cases h1 : tid = ""
    · left; simp [process_tweet, htid, h1]
    · by_cases h2 : tid ∈ seen
      · left; simp [process_tweet, htid, h1, h2]
      · right
        refine ⟨tid, rfl, h1, h2, ?_⟩
        rcases hent : tweet.entities with _ | e <;>
          rcases hcc : tweet.created_at with _ | sct | t <;>
          simp [process_tweet, htid, h1, h2, hent, hcc, extract_hashtags,
            extract_mentions, extract_urls]

/-- Characterization of a successful normalization: the id was present,
truthy and fresh, the record carries it, and it is recorded in the set. -/
theorem process_tweet_ok_some (now : Nat) (seen : List String)
    (tweet : RawTweet) (includes : Option Includes) (kw : String) (r : Record)
    (h : (process_tweet now seen tweet includes kw).1 = .ok (some r)) :
    ∃ tid, tweet.id = some tid ∧ tid ≠ "" ∧ tid ∉ seen ∧ r.tweet_id = tid ∧
      (process_tweet now seen tweet includes kw).2 = tid :: seen := by
  rcases htid : tweet.id with _ | tid
  · simp [process_tweet, htid] at h
  · by_cases h1 : tid = ""
    · simp [process_tweet, htid, h1] at h
    · by_cases h2 : tid ∈ seen
      · simp [process_tweet, htid, h1, h2] at h
      · rcases hent : tweet.entities with _ | e
        · simp [process_tweet, htid, h1, h2, hent, extract_hashtags] at h
        · rcases hcc : tweet.created_at with _ | sct | t
          · simp [process_tweet, htid, h1, h2, hent, hcc,
              extract_hashtags, extract_mentions, extract_urls] at h
          · refine ⟨tid, rfl, h1, h2, ?_, ?_⟩
            · simp only [process_tweet, htid, if_neg h1, if_neg h2, hent,
                hcc, extract_hashtags, extract_mentions, extract_urls] at h
              simp only [Except.ok.injEq, Option.some.injEq] at h
              rw [← h]
            · simp [process_tweet, htid, h1, h2, hent, hcc,
                extract_hashtags, extract_mentions, extract_urls]
          · refine ⟨tid, rfl, h1, h2, ?_, ?_⟩
            · simp only [process_tweet, htid, if_neg h1, if_neg h2, hent,
                hcc, extract_hashtags, extract_mentions, extract_urls] at h
              simp only [Except.ok.injEq, Option.some.injEq] at h
              rw [← h]
            · simp [process_tweet, htid, h1, h2, hent, hcc,
                extract_hashtags, extract_mentions, extract_urls]

/-- An id already in the set is silently dropped: no record, no error, set
unchanged. -/
theorem process_tweet_dup (now : Nat) (seen : List String) (tweet : RawTweet)
    (includes : Option Includes) (kw tid : String)
    (hid : tweet.id = some tid) (hseen : tid ∈ seen) :
    process_tweet now seen tweet includes kw = (.ok none, seen) := by
  by_cases h1 : tid = ""
  · simp [process_tweet, hid, h1]
  · simp [process_tweet, hid, h1, hseen]

/-! ## Claim C2 -/

/-- C2 counterexample: a raw tweet whose `created_at` field is absent is
dropped, not kept: `created_at_str` is `None` and `None.replace` raises
`AttributeError`, which the `except (ValueError, TypeError)` handler does
not catch, so normalization yields no record (the id stays poisoned in
the dedupe set). And in the unparsable case that is kept, nothing flags
the fallback: the record is byte-for-byte the one built from a parsed
timestamp equal to the processing instant. -/
theorem C2_counterexample :
    sampleTweetNoDate.created_at = RawCreatedAt.missing ∧
    process_tweet 5 [] sampleTweetNoDate none "kw" =
      (.error "AttributeError", ["1"]) ∧
    sampleTweetBadDate.created_at = RawCreatedAt.unparsable "not-a-date" ∧
    (sampleTweet 1).created_at = RawCreatedAt.parsed 1700000000 ∧
    process_tweet 1700000000 [] sampleTweetBadDate none "kw" =
      process_tweet 1700000000 [] (sampleTweet 1) none "kw" :=
  ⟨rfl, rfl, rfl, rfl, rfl⟩

/-- C2 (amended): a raw tweet whose `created_at` is present but
unparsable still yields a record (the item is not dropped) whose
timestamp fields are the processing wall-clock time, and nothing flags
the substitution — the result is the very record built when the
timestamp parses to that same instant; a raw tweet whose `created_at` is
absent yields no record at all: `None.replace` raises an uncaught
`AttributeError` after the id was inserted, so the item is dropped with
its id poisoned. -/
theorem C2_fallback_timestamp (now : Nat) (seen : List String)
    (tweet : RawTweet) (includes : Option Includes) (kw tid : String)
    (e : Entities) (hid : tweet.id = some tid) (hne : tid ≠ "")
    (hseen : tid ∉ seen) (hent : tweet.entities = some e) :
    (∀ s, tweet.created_at = .unparsable s →
      ∃ r : Record,
        (process_tweet now seen tweet includes kw).1 = .ok (some r) ∧
        r.timestamp = now ∧ r.created_at = now ∧ r.search_timestamp = now ∧
        process_tweet now seen tweet includes kw =
          process_tweet now seen
            { tweet with created_at := .parsed now } includes kw) ∧
    (tweet.created_at = .missing →
      process_tweet now seen tweet includes kw =
        (.error "AttributeError", tid :: seen)) := by
  constructor
  · intro s hca
    obtain ⟨r, hr, _, hcat, hts, hst⟩ := process_tweet_fresh now seen tweet
      includes kw tid e hid hne hseen hent (by rw [hca]; simp)
    refine ⟨r, by rw [hr], ?_, ?_, hst, ?_⟩
    · rw [hts, hcat, hca]
    · rw [hcat, hca]
    · simp only [process_tweet, hid, hne, hseen, hent, hca,
        extract_hashtags, extract_mentions, extract_urls,
        extract_user_info, extract_media_info, media_step]
  · intro hca
    simp [process_tweet, hid, hne, hseen, hent, hca, extract_hashtags,
      extract_mentions, extract_urls]

/-- C2 witness: both parts of the amended theorem at concrete inputs. -/
theorem C2_fallback_timestamp_witness :
    (∃ r : Record,
      (process_tweet 5 [] sampleTweetBadDate none "kw").1 = .ok (some r) ∧
      r.timestamp = 5 ∧ r.created_at = 5 ∧ r.search_timestamp = 5 ∧
      process_tweet 5 [] sampleTweetBadDate none "kw" =
        process_tweet 5 []
          { sampleTweetBadDate with created_at := .parsed 5 } none "kw") ∧
    process_tweet 5 [] sampleTweetNoDate none "kw" =
      (.error "AttributeError", ["1"]) := by
  constructor
  · exact (C2_fallback_timestamp 5 [] sampleTweetBadDate none "kw" "1"
      emptyEntities rfl (by decide) (by simp) rfl).1 "not-a-date" rfl
  · exact (C2_fallback_timestamp 5 [] sampleTweetNoDate none "kw" "1"
      emptyEntities rfl (by decide) (by simp) rfl).2 rfl

/-! ## Claim C9 -/

/-- C9 (confirmed): normalizing a raw tweet without an `entities` field is
not total: the id is inserted into `processed_tweet_ids` and then the
extraction helpers raise `AttributeError`, so no record is produced; every
later raw item with the same id is then silently dropped, and the page
loop swallows the exception and continues with the remaining items. -/
theorem C9_missing_entities (now : Nat) (seen : List String)
    (tweet : RawTweet) (includes : Option Includes) (kw tid : String)
    (hid : tweet.id = some tid) (hne : tid ≠ "") (hseen : tid ∉ seen)
    (hent : tweet.entities = none) :
    process_tweet now seen tweet includes kw =
      (.error "AttributeError", tid :: seen) ∧
    (∀ (now2 : Nat) (tweet2 : RawTweet) (inc2 : Option Includes)
      (kw2 : String), tweet2.id = some tid →
      process_tweet now2 (tid :: seen) tweet2 inc2 kw2 =
        (.ok none, tid :: seen)) ∧
    (∀ (cfg : Config) (w : SaveEnv) (rest : List RawTweet)
      (st : ScrapeState), st.processed_tweet_ids = seen →
      process_page cfg kw now w includes (tweet :: rest) st =
        process_page cfg kw now w includes rest
          { st with processed_tweet_ids := tid :: seen }) := by
  have hmain : process_tweet now seen tweet includes kw =
      (.error "AttributeError", tid :: seen) := by
    simp [process_tweet, hid, hne, hseen, hent, extract_hashtags]
  refine ⟨hmain, ?_, ?_⟩
  · intro now2 tweet2 inc2 kw2 hid2
    exact process_tweet_dup now2 (tid :: seen) tweet2 inc2 kw2 tid hid2
      (List.mem_cons_self tid seen)
  · intro cfg w rest st hst
    simp only [process_page, hst, hmain]

/-- C9 witness. -/
theorem C9_missing_entities_witness :
    process_tweet 3 [] sampleTweetNoEnt none "kw" =
      (.error "AttributeError", ["1"]) ∧
    (∀ (now2 : Nat) (tweet2 : RawTweet) (inc2 : Option Includes)
      (kw2 : String), tweet2.id = some "1" →
      process_tweet now2 ["1"] tweet2 inc2 kw2 = (.ok none, ["1"])) ∧
    (∀ (cfg : Config) (w : SaveEnv) (rest : List RawTweet)
      (st : ScrapeState), st.processed_tweet_ids = [] →
      process_page cfg "kw" 3 w none (sampleTweetNoEnt :: rest) st =
        process_page cfg "kw" 3 w none rest
          { st with processed_tweet_ids := ["1"] }) :=
  C9_missing_entities 3 [] sampleTweetNoEnt none "kw" "1" rfl (by decide)
    (by simp) rfl

/-! ## Claim C6 -/

/-- C6 (confirmed): when the credential/rate-limit probe fails — a 429, a
non-200 status, or a network error — `scrape_tweets` returns the empty
list and the main loop never issues a search fetch (the fetch trace is
empty). -/
theorem C6_probe_failure (cfg : Config) (kw : String) (now t : Nat)
    (hdr : Option Nat) (specs : List FetchSpec) (w : SaveEnv)
    (wf : Nat → Bool) :
    ((scrape_tweets cfg kw now (.rateLimited t hdr) specs w wf
        initState).result = [] ∧
      (scrape_tweets cfg kw now (.rateLimited t hdr) specs w wf
        initState).trace = []) ∧
    ((scrape_tweets cfg kw now .httpFailure specs w wf initState).result
        = [] ∧
      (scrape_tweets cfg kw now .httpFailure specs w wf initState).trace
        = []) ∧
    ((scrape_tweets cfg kw now .netFailure specs w wf initState).result
        = [] ∧
      (scrape_tweets cfg kw now .netFailure specs w wf initState).trace
        = []) := by
  refine ⟨⟨?_, ?_⟩, ⟨?_, ?_⟩, ⟨?_, ?_⟩⟩ <;>
    simp [scrape_tweets, check_rate_limit_status]

/-! ## Claim C1 -/

/-- C1 counterexample: in a run whose second fetch (cursor `T2`) is rate
limited while a third page is still available from the network, the
collector does not issue any further fetch with cursor `T2` (or at all):
the trace ends at the rate-limited call, refuting "the collector loop
issues the next fetch with the same cursor unchanged, and continues the
run". The new reset time (999) is recorded before terminating. -/
theorem C1_counterexample :
    runRateLimited.trace = [none, some "T2"] ∧
    runRateLimited.trace ≠ [none, some "T2", some "T2"] ∧
    runRateLimited.st.rate =
      { requests_remaining := 0, rate_limit_reset := 999 } :=
  ⟨rfl, by decide, rfl⟩

/-- C1 (amended): a rate-limited fetch records the reported reset time and
zeroes the remaining-request counter, sleeps until the reset (inside the
fetch), and then raises an error that tenacity does not retry; the loop
catches it and terminates the run at once — the cursor is not advanced,
but it is also never fetched again, and no further fetch of any kind is
issued (exactly one cursor is appended to the trace and the rest of the
world's script is never consumed). -/
theorem C1_rate_limit_terminates (cfg : Config) (kw : String) (now t : Nat)
    (w : SaveEnv) (hdr : Option Nat) (a2 : Attempt) (rest : List FetchSpec)
    (st : ScrapeState) (nt : Option String) (trace : List (Option String))
    (h1 : st.tweets_data.length < cfg.total_limit) :
    scrape_loop cfg kw now w
        ({ a1 := ⟨t, .rateLimited hdr⟩, a2 := a2 } :: rest) st nt trace =
      ({ st with
         rate := { requests_remaining := 0,
                   rate_limit_reset := hdr.getD (t + 900) } },
        trace ++ [nt]) := by
  rw [scrape_loop]
  rw [if_neg (by omega)]
  rfl

/-- C1 witness. -/
theorem C1_rate_limit_terminates_witness :
    scrape_loop defaultConfig "kw" 42 allOkSaves
        [{ a1 := ⟨7, .rateLimited (some 555)⟩,
           a2 := ⟨0, .transient⟩ }] initState (some "C") [none] =
      ({ initState with
         rate := { requests_remaining := 0,
                   rate_limit_reset := 555 } },
        [none, some "C"]) :=
  C1_rate_limit_terminates defaultConfig "kw" 42 7 allOkSaves (some 555)
    ⟨0, .transient⟩ [] initState (some "C") [none] (by decide)

/-! ## Claim C5 -/

/-- C5 (confirmed): a malformed (non-429, non-403, non-200) response
raises `ClientResponseError` after a single attempt — the retry budget is
untouched and the outcome is independent of the world's second attempt —
and the exception terminates the run at once (exactly one fetch in the
trace, the rest of the script unconsumed); a transient transport failure
is retried, succeeding when the second attempt returns a valid page, and
the attempt ceiling is 2 (two transient failures raise `RetryError`). -/
theorem C5_error_classification (st : RateState) (t t1 t2 status : Nat)
    (body : String) (a2 : Attempt) (page : Page) (rest : List FetchSpec)
    (kw : String) (now : Nat) (w : SaveEnv) (wf : Nat → Bool) :
    (fetch_tweets_async st { a1 := ⟨t, .httpFailure status body⟩, a2 := a2 }
      = (.error (.responseError status body), check_rate_limit t st, 1)) ∧
    ((fetch_tweets_async st
        { a1 := ⟨t1, .transient⟩, a2 := ⟨t2, .ok page⟩ }).1 = .ok page ∧
      (fetch_tweets_async st
        { a1 := ⟨t1, .transient⟩, a2 := ⟨t2, .ok page⟩ }).2.2 = 2) ∧
    ((fetch_tweets_async st
        { a1 := ⟨t1, .transient⟩, a2 := ⟨t2, .transient⟩ }).1 =
        .error (.retryErr .transientErr) ∧
      (fetch_tweets_async st
        { a1 := ⟨t1, .transient⟩, a2 := ⟨t2, .transient⟩ }).2.2 = 2) ∧
    ((scrape_tweets defaultConfig kw now (.ok none none)
        ({ a1 := ⟨t, .httpFailure status body⟩, a2 := a2 } :: rest) w wf
        initState).trace = [none]) ∧
    ((scrape_tweets defaultConfig "kw" 42 (.ok none none)
        [{ a1 := ⟨0, .transient⟩, a2 := ⟨0, .ok page12⟩ }] allOkSaves
        (fun _ => true) initState).result.length = 12) := by
  refine ⟨rfl, ⟨rfl, rfl⟩, ⟨rfl, rfl⟩, rfl, rfl⟩

/-! ## Claim C3 -/

/-- C3 counterexample: with `batch_size = 5` and 12 surviving records, the
loop flushes batches of sizes 5 and 5 and the pending buffer then holds 2
records, not 1: the sequence of persisted batch sizes is `[5, 5, 2]`. -/
theorem C3_counterexample :
    runBatch12.st.durable.batches.map (fun p => (p.1, p.2.length)) =
      [(0, 5), (1, 5), (2, 2)] ∧
    ([(0, 5), (1, 5), (2, 2)] : List (Nat × Nat)) ≠ [(0, 5), (1, 5), (2, 1)]
    := ⟨rfl, by decide⟩

/-- C3 (amended): with `batch_size = 5` and 12 surviving records, exactly
2 full batches of 5 are flushed during the loop, 2 records remain in the
pending buffer and are flushed as one final partial batch, and the final
full-dataset write contains all 12 records. -/
theorem C3_batch_boundary :
    runBatch12.result.length = 12 ∧
    runBatch12.st.durable.batches.map (fun p => (p.1, p.2.length)) =
      [(0, 5), (1, 5), (2, 2)] ∧
    runBatch12.st.durable.full_file.map List.length = some 12 ∧
    runBatch12.st.batch_num = 3 ∧
    runBatch12.st.batch_data = [] :=
  ⟨rfl, rfl, rfl, rfl, rfl⟩

/-! ## Frame lemmas for the flush and epilogue -/

theorem flush_batch_tweets_data (w : SaveEnv) (st : ScrapeState) :
    (flush_batch w st).tweets_data = st.tweets_data := rfl

theorem flush_batch_ids (w : SaveEnv) (st : ScrapeState) :
    (flush_batch w st).processed_tweet_ids = st.processed_tweet_ids := rfl

theorem flush_batch_rate (w : SaveEnv) (st : ScrapeState) :
    (flush_batch w st).rate = st.rate := rfl

theorem write_full_tweets_data (wf : Nat → Bool) (st : ScrapeState) :
    (write_full wf st).tweets_data = st.tweets_data := by
  unfold write_full
  split
  · rfl
  · split <;> rfl

theorem write_full_rate (wf : Nat → Bool) (st : ScrapeState) :
    (write_full wf st).rate = st.rate := by
  unfold write_full
  split
  · rfl
  · split <;> rfl

theorem scrape_epilogue_tweets_data (w : SaveEnv) (wf : Nat → Bool)
    (st : ScrapeState) :
    (scrape_epilogue w wf st).tweets_data = st.tweets_data := by
  unfold scrape_epilogue
  rw [write_full_tweets_data]
  split <;> rfl

theorem scrape_epilogue_rate (w : SaveEnv) (wf : Nat → Bool)
    (st : ScrapeState) :
    (scrape_epilogue w wf st).rate = st.rate := by
  unfold scrape_epilogue
  rw [write_full_rate]
  split <;> rfl

/-! ## Claim C10: the accumulator never exceeds `total_limit` -/

theorem process_page_le_limit (cfg : Config) (kw : String) (now : Nat)
    (w : SaveEnv) (inc : Option Includes) :
    ∀ (items : List RawTweet) (st : ScrapeState),
      st.tweets_data.length < cfg.total_limit →
      (process_page cfg kw now w inc items st).tweets_data.length ≤
        cfg.total_limit := by
  intro items
  induction items with
  | nil =>
    intro st h
    simpa [process_page] using Nat.le_of_lt h
  | cons tweet rest ih =>
    intro st h
    simp only [process_page]
    rcases hpr : (process_tweet now st.processed_tweet_ids tweet inc kw).1
      with e | or
    · exact ih _ (by simpa using h)
    · rcases or with _ | r
      · exact ih _ (by simpa using h)
      · by_cases hc : (st.batch_data ++ [r]).length ≥ cfg.batch_size <;>
          simp only [hc, ite_true, ite_false, if_true, if_false,
            flush_batch_tweets_data] <;>
        · by_cases hstop : (st.tweets_data ++ [r]).length ≥ cfg.total_limit <;>
            simp only [hstop, ite_true, ite_false, if_true, if_false,
              flush_batch_tweets_data]
          · simp only [List.length_append, List.length_cons,
              List.length_nil] at hstop ⊢
            omega
          · refine ih _ ?_
            simp only [flush_batch_tweets_data]
            simp only [List.length_append, List.length_cons,
              List.length_nil] at hstop ⊢
            omega

theorem scrape_loop_le_limit (cfg : Config) (kw : String) (now : Nat)
    (w : SaveEnv) :
    ∀ (specs : List FetchSpec) (st : ScrapeState) (nt : Option String)
      (trace : List (Option String)),
      st.tweets_data.length ≤ cfg.total_limit →
      (scrape_loop cfg kw now w specs st nt
        trace).1.tweets_data.length ≤ cfg.total_limit := by
  intro specs
  induction specs with
  | nil =>
    intro st nt trace h
    rw [scrape_loop]
    split
    · exact h
    · exact h
  | cons spec rest ih =>
    intro st nt trace h
    rw [scrape_loop]
    by_cases hg : st.tweets_data.length ≥ cfg.total_limit
    · rw [if_pos hg]; exact h
    · rw [if_neg hg]
      rcases hf : (fetch_tweets_async st.rate spec).1 with e | page
      · simp only [hf]; exact h
      · simp only [hf]
        by_cases hd : page.data.isEmpty
        · simp only [if_pos hd]; exact h
        · simp only [if_neg hd]
          have hlt : st.tweets_data.length < cfg.total_limit := by omega
          have hpp := process_page_le_limit cfg kw now w page.includes
            page.data { st with rate := (fetch_tweets_async st.rate spec).2.1 }
            (by simpa using hlt)
          by_cases htok : truthyOptStr page.next_token = true
          · simp only [htok, if_pos]
            exact ih _ _ _ hpp
          · simp only [eq_false_of_ne_true htok, if_false]
            exact hpp

/-- C10 (confirmed): for every world, the list returned by `scrape_tweets`
holds at most `total_limit` (1000 in `__init__`) records: the mid-page
limit check stops appending as soon as the accumulator reaches the limit,
so a partially consumed page never overshoots it. -/
theorem C10_total_limit (kw : String) (now : Nat) (probe : ProbeOutcome)
    (specs : List FetchSpec) (w : SaveEnv) (wf : Nat → Bool) :
    (scrape_tweets defaultConfig kw now probe specs w wf
      initState).result.length ≤ 1000 ∧
    ∀ cfg : Config,
      (scrape_tweets cfg kw now probe specs w wf
        initState).result.length ≤ cfg.total_limit := by
  have hgen : ∀ cfg : Config,
      (scrape_tweets cfg kw now probe specs w wf
        initState).result.length ≤ cfg.total_limit := by
    intro cfg
    unfold scrape_tweets
    rcases hp : (check_rate_limit_status initState.rate probe).1 with _ | _
    · simp [hp]
    · simp only [hp, Bool.not_true, Bool.false_eq_true, if_false]
      rw [scrape_epilogue_tweets_data]
      exact scrape_loop_le_limit cfg _ now w specs _ none [] (by simp [initState])
  exact ⟨by simpa [defaultConfig] using hgen defaultConfig, hgen⟩

/-! ## Claim C8: `requests_remaining` never goes below zero -/

/-- The pre-fetch gate leaves the counter strictly positive: an exhausted
counter is reset to the conservative default 900 on both branches. -/
theorem check_rate_limit_pos (t : Nat) (st : RateState) :
    0 < (check_rate_limit t st).requests_remaining := by
  unfold check_rate_limit
  split
  · decide
  · split
    · decide
    · omega

/-- Observing any fetch response (which always runs after the gate) leaves
the counter non-negative; in particular the header-absent decrement acts
on the strictly positive post-gate value. -/
theorem fetch_attempt_nonneg (st : RateState) (a : Attempt) :
    0 ≤ (fetch_attempt st a).2.requests_remaining := by
  have hg := check_rate_limit_pos a.t st
  unfold fetch_attempt
  cases ho : a.outcome
  case ok page =>
    simp only [ho]
    cases hh : page.remaining_hdr <;> simp only [hh] <;> omega
  case rateLimited hdr => simp only [ho]; decide
  case authFailure => simp only [ho]; omega
  case httpFailure status body => simp only [ho]; omega
  case transient => simp only [ho]; omega

theorem fetch_tweets_async_nonneg (st : RateState) (spec : FetchSpec) :
    0 ≤ (fetch_tweets_async st spec).2.1.requests_remaining := by
  unfold fetch_tweets_async
  rcases h1 : fetch_attempt st spec.a1 with ⟨r1, st1⟩
  have hn1 : 0 ≤ st1.requests_remaining := by
    have h := fetch_attempt_nonneg st spec.a1
    rw [h1] at h
    exact h
  rcases h2 : fetch_attempt st1 spec.a2 with ⟨r2, st2⟩
  have hn2 : 0 ≤ st2.requests_remaining := by
    have h := fetch_attempt_nonneg st1 spec.a2
    rw [h2] at h
    exact h
  cases r1 with
  | ok p => exact hn1
  | error e =>
    cases e with
    | clientError m => exact hn1
    | responseError s b => exact hn1
    | retryErr e2 => exact hn1
    | transientErr =>
      simp only [h2]
      cases r2 with
      | ok p => exact hn2
      | error e2 => cases e2 <;> exact hn2

theorem process_page_rate (cfg : Config) (kw : String) (now : Nat)
    (w : SaveEnv) (inc : Option Includes) :
    ∀ (items : List RawTweet) (st : ScrapeState),
      (process_page cfg kw now w inc items st).rate = st.rate := by
  intro items
  induction items with
  | nil => intro st; rfl
  | cons tweet rest ih =>
    intro st
    simp only [process_page]
    rcases (process_tweet now st.processed_tweet_ids tweet inc kw).1
      with e | or
    · exact ih _
    · rcases or with _ | r
      · exact ih _
      · by_cases hc : (st.batch_data ++ [r]).length ≥ cfg.batch_size
        · simp only [hc, ite_true, if_true]
          split
          · exact flush_batch_rate w _
          · rw [ih, flush_batch_rate]
        · simp only [hc, ite_false, if_false]
          split
          · rfl
          · rw [ih]

theorem scrape_loop_rate_nonneg (cfg : Config) (kw : String) (now : Nat)
    (w : SaveEnv) :
    ∀ (specs : List FetchSpec) (st : ScrapeState) (nt : Option String)
      (trace : List (Option String)),
      0 ≤ st.rate.requests_remaining →
      0 ≤ (scrape_loop cfg kw now w specs st nt
        trace).1.rate.requests_remaining := by
  intro specs
  induction specs with
  | nil =>
    intro st nt trace h
    rw [scrape_loop]
    split
    · exact h
    · exact h
  | cons spec rest ih =>
    intro st nt trace h
    rw [scrape_loop]
    split
    · exact h
    · have hf := fetch_tweets_async_nonneg st.rate spec
      rcases hr : (fetch_tweets_async st.rate spec).1 with e | page
      · simp only [hr]
        exact hf
      · simp only [hr]
        split
        · exact hf
        · split
          · refine ih _ _ _ ?_
            rw [process_page_rate]
            exact hf
          · rw [process_page_rate]
            exact hf

/-- C8 (confirmed): `requests_remaining` starts at 900 and is non-negative
in every reachable state: the only mutations are the probe observation,
the pre-fetch gate (which resets an exhausted counter to 900), and the
fetch-response observation (429 sets zero; a 200 stores the header count
or decrements the strictly positive post-gate value), and each preserves
non-negativity — hence so does any whole run. -/
theorem C8_requests_remaining_nonneg :
    initState.rate.requests_remaining = 900 ∧
    (∀ (st : RateState) (pr : ProbeOutcome),
      0 ≤ st.requests_remaining →
      0 ≤ (check_rate_limit_status st pr).2.requests_remaining) ∧
    (∀ (t : Nat) (st : RateState),
      0 < (check_rate_limit t st).requests_remaining) ∧
    (∀ (st : RateState) (a : Attempt),
      0 ≤ (fetch_attempt st a).2.requests_remaining) ∧
    (∀ (cfg : Config) (kw : String) (now : Nat) (probe : ProbeOutcome)
      (specs : List FetchSpec) (w : SaveEnv) (wf : Nat → Bool),
      0 ≤ (scrape_tweets cfg kw now probe specs w wf
        initState).st.rate.requests_remaining) := by
  refine ⟨rfl, ?_, check_rate_limit_pos, fetch_attempt_nonneg, ?_⟩
  · intro st pr h
    rcases pr with ⟨remHdr, resetHdr⟩ | ⟨t, resetHdr⟩ | _ | _
    · rcases remHdr with _ | n <;> simp [check_rate_limit_status] <;> omega
    · exact h
    · exact h
    · exact h
  · intro cfg kw now probe specs w wf
    have hpr : 0 ≤ (check_rate_limit_status initState.rate
        probe).2.requests_remaining := by
      rcases probe with ⟨remHdr, resetHdr⟩ | ⟨t, resetHdr⟩ | _ | _
      · rcases remHdr with _ | n <;> simp [check_rate_limit_status] <;> omega
      · simp [check_rate_limit_status, initState]
      · simp [check_rate_limit_status, initState]
      · simp [check_rate_limit_status, initState]
    unfold scrape_tweets
    rcases hp : (check_rate_limit_status initState.rate probe).1 with _ | _
    · simp only [hp, Bool.not_false, if_true]
      exact hpr
    · simp only [hp, Bool.not_true, Bool.false_eq_true, if_false]
      rw [scrape_epilogue_rate]
      exact scrape_loop_rate_nonneg cfg _ now w specs _ none [] hpr

/-- C8 witness: the probe-preservation clause applied at a concrete state
and outcome. -/
theorem C8_requests_remaining_nonneg_witness :
    0 ≤ (check_rate_limit_status { requests_remaining := 5, rate_limit_reset := 77 }
      ProbeOutcome.httpFailure).2.requests_remaining :=
  C8_requests_remaining_nonneg.2.1
    { requests_remaining := 5, rate_limit_reset := 77 }
    ProbeOutcome.httpFailure (by decide)

/-! ## Claim C7: a flush failure only affects the durable copy -/

theorem scrape_loop_nil (cfg : Config) (kw : String) (now : Nat)
    (w : SaveEnv) (st : ScrapeState) (nt : Option String)
    (trace : List (Option String)) :
    scrape_loop cfg kw now w [] st nt trace = (st, trace) := by
  rw [scrape_loop]
  split <;> rfl

theorem core_tweets_data {st st' : ScrapeState} (h : st.core = st'.core) :
    st.tweets_data = st'.tweets_data := congrArg (fun c => c.1) h

theorem core_ids {st st' : ScrapeState} (h : st.core = st'.core) :
    st.processed_tweet_ids = st'.processed_tweet_ids :=
  congrArg (fun c => c.2.1) h

theorem flush_batch_core (w w' : SaveEnv) (st st' : ScrapeState)
    (h : st.core = st'.core) :
    (flush_batch w st).core = (flush_batch w' st').core := by
  simp only [ScrapeState.core, Prod.mk.injEq] at h
  obtain ⟨h1, h2, h3, h4, h5, h6⟩ := h
  simp only [ScrapeState.core, flush_batch, Prod.mk.injEq]
  exact ⟨h1, h2, h3, trivial, by rw [h5], by rw [h6]⟩

theorem write_full_core (wf : Nat → Bool) (st : ScrapeState) :
    (write_full wf st).core = st.core := by
  unfold write_full
  split
  · rfl
  · split <;> rfl

theorem process_page_core (cfg : Config) (kw : String) (now : Nat)
    (inc : Option Includes) :
    ∀ (items : List RawTweet) (w w' : SaveEnv) (st st' : ScrapeState),
      st.core = st'.core →
      (process_page cfg kw now w inc items st).core =
        (process_page cfg kw now w' inc items st').core := by
  intro items
  induction items with
  | nil =>
    intro w w' st st' h
    simpa [process_page] using h
  | cons tweet rest ih =>
    intro w w' st st' h
    have hcomp := h
    simp only [ScrapeState.core, Prod.mk.injEq] at hcomp
    obtain ⟨h1, h2, h3, h4, h5, h6⟩ := hcomp
    simp only [process_page, h1, h2, h3, h4, h5, h6]
    rcases hpr : (process_tweet now st'.processed_tweet_ids tweet inc kw).1
      with e | or
    · exact ih w w' _ _
        (by simp [ScrapeState.core, h1, h3, h4, h5, h6])
    · rcases or with _ | r
      · exact ih w w' _ _
          (by simp [ScrapeState.core, h1, h3, h4, h5, h6])
      · by_cases hc : (st'.batch_data ++ [r]).length ≥ cfg.batch_size
        · simp only [hc, ite_true, if_true, flush_batch_tweets_data]
          by_cases hstop :
              (st'.tweets_data ++ [r]).length ≥ cfg.total_limit
          · simp only [hstop, ite_true, if_true]
            exact flush_batch_core w w' _ _ (by simp [ScrapeState.core])
          · simp only [hstop, ite_false, if_false]
            exact ih w w' _ _
              (flush_batch_core w w' _ _ (by simp [ScrapeState.core]))
        · simp only [hc, ite_false, if_false]
          by_cases hstop :
              (st'.tweets_data ++ [r]).length ≥ cfg.total_limit
          · simp only [hstop, ite_true, if_true]
            simp [ScrapeState.core]
          · simp only [hstop, ite_false, if_false]
            exact ih w w' _ _ (by simp [ScrapeState.core])

theorem scrape_loop_core (cfg : Config) (kw : String) (now : Nat) :
    ∀ (specs : List FetchSpec) (w w' : SaveEnv) (st st' : ScrapeState)
      (nt : Option String) (trace : List (Option String)),
      st.core = st'.core →
      (scrape_loop cfg kw now w specs st nt trace).1.core =
          (scrape_loop cfg kw now w' specs st' nt trace).1.core ∧
        (scrape_loop cfg kw now w specs st nt trace).2 =
          (scrape_loop cfg kw now w' specs st' nt trace).2 := by
  intro specs
  induction specs with
  | nil =>
    intro w w' st st' nt trace h
    rw [scrape_loop_nil, scrape_loop_nil]
    exact ⟨h, rfl⟩
  | cons spec rest ih =>
    intro w w' st st' nt trace h
    have hcomp := h
    simp only [ScrapeState.core, Prod.mk.injEq] at hcomp
    obtain ⟨h1, h2, h3, h4, h5, h6⟩ := hcomp
    rw [scrape_loop, scrape_loop]
    by_cases hg : st'.tweets_data.length ≥ cfg.total_limit
    · rw [if_pos (by rw [h1]; exact hg), if_pos hg]
      exact ⟨h, rfl⟩
    · rw [if_neg (by rw [h1]; exact hg), if_neg hg]
      simp only [h3]
      rcases hf : (fetch_tweets_async st'.rate spec).1 with e | page <;>
        simp only [hf]
      · exact ⟨by simp [ScrapeState.core, h1, h2, h4, h5, h6], trivial⟩
      · by_cases hd : page.data.isEmpty
        · simp only [hd, ite_true, if_true]
          exact ⟨by simp [ScrapeState.core, h1, h2, h4, h5, h6], trivial⟩
        · simp only [hd, ite_false, if_false]
          have hpp := process_page_core cfg kw now page.includes page.data
            w w' { st with rate := (fetch_tweets_async st'.rate spec).2.1 }
            { st' with rate := (fetch_tweets_async st'.rate spec).2.1 }
            (by simp [ScrapeState.core, h1, h2, h4, h5, h6])
          by_cases ht : truthyOptStr page.next_token = true
          · simp only [ht, ite_true, if_true]
            exact ih w w' _ _ page.next_token (trace ++ [nt]) hpp
          · simp only [eq_false_of_ne_true ht, ite_false, if_false]
            exact ⟨hpp, rfl⟩

theorem scrape_epilogue_core (w w' : SaveEnv) (wf wf' : Nat → Bool)
    (st st' : ScrapeState) (h : st.core = st'.core) :
    (scrape_epilogue w wf st).core = (scrape_epilogue w' wf' st').core := by
  have hcomp := h
  simp only [ScrapeState.core, Prod.mk.injEq] at hcomp
  obtain ⟨h1, h2, h3, h4, h5, h6⟩ := hcomp
  unfold scrape_epilogue
  rw [write_full_core, write_full_core]
  by_cases hb : st'.batch_data.isEmpty
  · rw [if_pos (by rw [h4]; exact hb), if_pos hb]
    exact h
  · rw [if_neg (by rw [h4]; exact hb), if_neg hb]
    exact flush_batch_core w w' st st' h

/-- C7 (confirmed): a batch-flush failure changes nothing but the durable
copy. First, `_save_batch` with three failed write attempts leaves the
durable store unchanged, and a flush never touches the accumulator, the
dedupe set or the rate state (with all attempts failing, its entire effect
is the caller's buffer clearing and counter increments). Second, at the
run level the returned list, the fetch trace, the accumulator and the
dedupe set are identical whatever the write outcomes — the records of a
failed batch are exactly as present in the result as on a filesystem that
never fails. -/
theorem C7_flush_failure_frame :
    (∀ (durable : List (Nat × List Record)) (b : List Record) (n : Nat),
      save_batch (fun _ => false) durable b n = durable) ∧
    (∀ (st : ScrapeState),
      flush_batch allFailSaves st =
        { st with batch_data := [], batch_num := st.batch_num + 1,
                  save_calls := st.save_calls + 1 }) ∧
    (∀ (w : SaveEnv) (st : ScrapeState),
      (flush_batch w st).tweets_data = st.tweets_data ∧
      (flush_batch w st).processed_tweet_ids = st.processed_tweet_ids ∧
      (flush_batch w st).rate = st.rate) ∧
    (∀ (cfg : Config) (kw : String) (now : Nat) (probe : ProbeOutcome)
      (specs : List FetchSpec) (w w' : SaveEnv) (wf wf' : Nat → Bool),
      (scrape_tweets cfg kw now probe specs w wf initState).result =
        (scrape_tweets cfg kw now probe specs w' wf' initState).result ∧
      (scrape_tweets cfg kw now probe specs w wf initState).trace =
        (scrape_tweets cfg kw now probe specs w' wf' initState).trace ∧
      (scrape_tweets cfg kw now probe specs w wf
          initState).st.processed_tweet_ids =
        (scrape_tweets cfg kw now probe specs w' wf'
          initState).st.processed_tweet_ids) := by
  refine ⟨fun durable b n => rfl, fun st => rfl,
    fun w st => ⟨rfl, rfl, rfl⟩, ?_⟩
  intro cfg kw now probe specs w w' wf wf'
  unfold scrape_tweets
  rcases hp : (check_rate_limit_status initState.rate probe).1 with _ | _
  · simp [hp]
  · simp only [hp, Bool.not_true, Bool.false_eq_true, if_false]
    obtain ⟨hcore, htrace⟩ :=
      scrape_loop_core cfg _ now specs w w' _ _ none [] rfl
    have hep := scrape_epilogue_core w w' wf wf' _ _ hcore
    exact ⟨core_tweets_data hep, htrace, core_ids hep⟩

/-! ## Claim C4: id uniqueness and idempotent dedupe -/

theorem nodup_map_append_one {l : List Record} {r : Record}
    (h1 : (l.map Record.tweet_id).Nodup)
    (h2 : r.tweet_id ∉ l.map Record.tweet_id) :
    ((l ++ [r]).map Record.tweet_id).Nodup := by
  rw [List.map_append]
  refine List.Nodup.append h1 (List.nodup_singleton _) ?_
  intro x hx hy
  simp only [List.map_cons, List.map_nil, List.mem_singleton] at hy
  subst hy
  exact h2 hx

theorem save_batch_go_mem (d : List (Nat × List Record))
    (entry : Nat × List Record) :
    ∀ (ws : List Bool) (b : Nat × List Record),
      b ∈ save_batch_go d entry ws → b ∈ d ∨ b = entry := by
  intro ws
  induction ws with
  | nil => intro b hb; exact Or.inl hb
  | cons okw rest ih =>
    intro b hb
    simp only [save_batch_go] at hb
    by_cases h : okw = true
    · rw [if_pos h] at hb
      rcases List.mem_append.mp hb with h1 | h2
      · exact Or.inl h1
      · right; simpa using h2
    · rw [if_neg h] at hb
      exact ih b hb

theorem flush_batch_inv (w : SaveEnv) (st : ScrapeState) (h : RecInv st) :
    RecInv (flush_batch w st) := by
  obtain ⟨i1, i2, i3, i4, i5, i6⟩ := h
  refine ⟨i1, i2, List.nodup_nil, ?_, ?_, ?_⟩
  · intro r hr
    simp [flush_batch] at hr
  · intro b hb
    rcases save_batch_go_mem st.durable.batches
      (st.batch_num, st.batch_data) _ b hb with h1 | h2
    · exact i5 b h1
    · rw [h2]
      exact i3
  · intro r hr
    simp [flush_batch] at hr

theorem write_full_inv (wf : Nat → Bool) (st : ScrapeState) (h : RecInv st) :
    RecInv (write_full wf st) := by
  unfold write_full
  split
  · exact h
  · split
    · exact h
    · exact h

theorem process_page_inv (cfg : Config) (kw : String) (now : Nat)
    (w : SaveEnv) (inc : Option Includes) :
    ∀ (items : List RawTweet) (st : ScrapeState),
      RecInv st → RecInv (process_page cfg kw now w inc items st) := by
  intro items
  induction items with
  | nil =>
    intro st h
    simpa [process_page] using h
  | cons tweet rest ih =>
    intro st h
    obtain ⟨i1, i2, i3, i4, i5, i6⟩ := h
    have hsub : ∀ x, x ∈ st.processed_tweet_ids →
        x ∈ (process_tweet now st.processed_tweet_ids tweet inc kw).2 := by
      rcases process_tweet_seen now st.processed_tweet_ids tweet inc kw with
        hs | ⟨tid, _, _, _, hs⟩ <;> rw [hs]
      · exact fun x hx => hx
      · exact fun x hx => List.mem_cons_of_mem _ hx
    simp only [process_page]
    rcases hpr : (process_tweet now st.processed_tweet_ids tweet inc kw).1
      with e | or
    · exact ih _ ⟨i1, fun r hr => hsub _ (i2 r hr), i3,
        fun r hr => hsub _ (i4 r hr), i5, i6⟩
    · rcases or with _ | r
      · exact ih _ ⟨i1, fun r hr => hsub _ (i2 r hr), i3,
          fun r hr => hsub _ (i4 r hr), i5, i6⟩
      · obtain ⟨tid, hid, hne, hfresh, hrtid, hseen2⟩ :=
          process_tweet_ok_some now st.processed_tweet_ids tweet inc kw r hpr
        have hnotin_t : r.tweet_id ∉ st.tweets_data.map Record.tweet_id := by
          intro hmem
          obtain ⟨r2, hr2, hr2id⟩ := List.mem_map.mp hmem
          exact hfresh (hrtid ▸ hr2id ▸ i2 r2 hr2)
        have hnotin_b : r.tweet_id ∉ st.batch_data.map Record.tweet_id := by
          intro hmem
          obtain ⟨r2, hr2, hr2id⟩ := List.mem_map.mp hmem
          exact hfresh (hrtid ▸ hr2id ▸ i4 r2 hr2)
        have hinvA : RecInv
            { st with
              processed_tweet_ids :=
                (process_tweet now st.processed_tweet_ids tweet inc kw).2,
              tweets_data := st.tweets_data ++ [r],
              batch_data := st.batch_data ++ [r] } := by
          rw [hseen2]
          refine ⟨nodup_map_append_one i1 hnotin_t, ?_,
            nodup_map_append_one i3 hnotin_b, ?_, i5, ?_⟩
          · intro r2 hr2
            rcases List.mem_append.mp hr2 with h1 | h2
            · exact List.mem_cons_of_mem _ (i2 r2 h1)
            · simp only [List.mem_singleton] at h2
              rw [h2, hrtid]
              exact List.mem_cons_self tid st.processed_tweet_ids
          · intro r2 hr2
            rcases List.mem_append.mp hr2 with h1 | h2
            · exact List.mem_cons_of_mem _ (i4 r2 h1)
            · simp only [List.mem_singleton] at h2
              rw [h2, hrtid]
              exact List.mem_cons_self tid st.processed_tweet_ids
          · intro r2 hr2
            rcases List.mem_append.mp hr2 with h1 | h2
            · exact List.mem_append_left _ (i6 r2 h1)
            · exact List.mem_append_right _ h2
        by_cases hc : (st.batch_data ++ [r]).length ≥ cfg.batch_size
        · simp only [hc, ite_true, if_true, flush_batch_tweets_data]
          have hinvB := flush_batch_inv w _ hinvA
          split
          · exact hinvB
          · exact ih _ hinvB
        · simp only [hc, ite_false, if_false]
          split
          · exact hinvA
          · exact ih _ hinvA

theorem scrape_loop_inv (cfg : Config) (kw : String) (now : Nat)
    (w : SaveEnv) :
    ∀ (specs : List FetchSpec) (st : ScrapeState) (nt : Option String)
      (trace : List (Option String)),
      RecInv st → RecInv (scrape_loop cfg kw now w specs st nt trace).1 := by
  intro specs
  induction specs with
  | nil =>
    intro st nt trace h
    rw [scrape_loop_nil]
    exact h
  | cons spec rest ih =>
    intro st nt trace h
    rw [scrape_loop]
    split
    · exact h
    · rcases hf : (fetch_tweets_async st.rate spec).1 with e | page
      · simp only [hf]
        exact h
      · simp only [hf]
        have hinv1 : RecInv
            { st with rate := (fetch_tweets_async st.rate spec).2.1 } := h
        split
        · exact hinv1
        · split
          · exact ih _ _ _ (process_page_inv cfg kw now w page.includes
              page.data _ hinv1)
          · exact process_page_inv cfg kw now w page.includes
              page.data _ hinv1

theorem scrape_epilogue_inv (w : SaveEnv) (wf : Nat → Bool)
    (st : ScrapeState) (h : RecInv st) : RecInv (scrape_epilogue w wf st) := by
  unfold scrape_epilogue
  refine write_full_inv wf _ ?_
  split
  · exact h
  · exact flush_batch_inv w st h

theorem RecInv_initState : RecInv initState := by
  refine ⟨List.nodup_nil, ?_, List.nodup_nil, ?_, ?_, ?_⟩ <;>
    intro x hx <;> simp [initState] at hx

/-- C4 (confirmed): within one run each tweet id yields at most one record.
A raw item whose normalization succeeded makes any second processing of an
item with the same id return no record and no error, with the set
unchanged (idempotent dedupe: twice the same raw item, one record); an
already-seen id is always silently dropped; and for every world the list
returned by `scrape_tweets` and every persisted batch have pairwise
distinct `tweet_id`s. -/
theorem C4_unique_ids :
    (∀ (now : Nat) (seen : List String) (tweet : RawTweet)
      (inc : Option Includes) (kw : String) (r : Record),
      (process_tweet now seen tweet inc kw).1 = .ok (some r) →
      process_tweet now (process_tweet now seen tweet inc kw).2 tweet inc kw
        = (.ok none, (process_tweet now seen tweet inc kw).2)) ∧
    (∀ (now : Nat) (seen : List String) (tweet : RawTweet)
      (inc : Option Includes) (kw tid : String),
      tweet.id = some tid → tid ∈ seen →
      process_tweet now seen tweet inc kw = (.ok none, seen)) ∧
    (∀ (cfg : Config) (kw : String) (now : Nat) (probe : ProbeOutcome)
      (specs : List FetchSpec) (w : SaveEnv) (wf : Nat → Bool),
      ((scrape_tweets cfg kw now probe specs w wf initState).result.map
        Record.tweet_id).Nodup ∧
      ∀ b ∈ (scrape_tweets cfg kw now probe specs w wf
        initState).st.durable.batches,
        (b.2.map Record.tweet_id).Nodup) := by
  refine ⟨?_, ?_, ?_⟩
  · intro now seen tweet inc kw r h
    obtain ⟨tid, hid, hne, hfresh, hrtid, hseen2⟩ :=
      process_tweet_ok_some now seen tweet inc kw r h
    rw [hseen2]
    exact process_tweet_dup now (tid :: seen) tweet inc kw tid hid
      (List.mem_cons_self tid seen)
  · intro now seen tweet inc kw tid hid hseen
    exact process_tweet_dup now seen tweet inc kw tid hid hseen
  · intro cfg kw now probe specs w wf
    unfold scrape_tweets
    rcases hp : (check_rate_limit_status initState.rate probe).1 with _ | _
    · simp [hp]
      intro a b hb
      simp [initState] at hb
    · simp only [hp, Bool.not_true, Bool.false_eq_true, if_false]
      have hinv := scrape_epilogue_inv w wf
        (scrape_loop cfg
          (if kw.toLower = "miroladdodik" then "milorad dodik" else kw) now w
          specs
          { initState with
            rate := (check_rate_limit_status initState.rate probe).2 }
          none []).1
        (scrape_loop_inv cfg
          (if kw.toLower = "miroladdodik" then "milorad dodik" else kw) now w
          specs
          { initState with
            rate := (check_rate_limit_status initState.rate probe).2 }
          none [] RecInv_initState)
      exact ⟨hinv.1, hinv.2.2.2.2.1⟩

/-- C4 witness: idempotent dedupe at a concrete raw item. -/
theorem C4_unique_ids_witness :
    process_tweet 9 (process_tweet 9 [] (sampleTweet 2) none "kw").2
        (sampleTweet 2) none "kw" =
      (.ok none, (process_tweet 9 [] (sampleTweet 2) none "kw").2) ∧
    process_tweet 9 ["2"] (sampleTweet 2) none "kw" = (.ok none, ["2"]) :=
  ⟨C4_unique_ids.1 9 [] (sampleTweet 2) none "kw" _ rfl,
   C4_unique_ids.2.1 9 ["2"] (sampleTweet 2) none "kw" "2" rfl
     (by decide)⟩

end SnScrape
